import Mathlib

/-!
Shallow embedding of the LSM303DLHC I2C component of the Tock kernel
(src/boards/components/src/lsm303dlhc.rs) and of the exact slices of its
collaborators that the component touches.  The component source is the
authority; collaborator types that live outside the provided sources
(kernel capabilities, kernel grants, static_buf, the virtual-I2C device
and the LSM303DLHC capsule) are modelled from the specification, each
marked with a doc comment.

References held by the constructed object graph are modelled as symbolic
cell references (the four static storage cells of the component), and
`finalize` additionally records an event trace of its observable actions
(capability creation, grant creation, cell writes, client registration)
in source order, so that once-and-only-once and ordering claims can be
stated and proved.
-/

/-- Bytes, the Rust u8 type. -/
abbrev U8 := Fin 256

/-- The contents of a Rust `[u8; 8]` scratch buffer. -/
abbrev Buffer8 := Fin 8 → U8

/-- Modelled from the spec: a reference to an already-constructed shared
`MuxI2C` instance.  The mux internals are irrelevant to the component, so a
mux is identified only by which instance it is. -/
structure MuxI2C where
  id : Nat
deriving DecidableEq

/-- Modelled from the spec: a reference to the board kernel handle, which
offers `create_grant`.  Identified only by which kernel instance it is. -/
structure Kernel where
  id : Nat
deriving DecidableEq

/-- Modelled from the spec: `kernel::capabilities::MemoryAllocationCapability`,
an unforgeable zero-sized proof value; possessing one is the only way to
invoke the privileged `create_grant` operation. -/
structure MemoryAllocationCapability
deriving DecidableEq

/-- Modelled from the spec: the `GrantHandle` returned by
`create_grant(driver_num, &CapabilityToken)`.  It records which kernel issued
it and the registration number used as the grant key. -/
structure Grant where
  kernel : Kernel
  driver_num : Nat
deriving DecidableEq

/-- Modelled from the spec: `create_grant(driver_num, &CapabilityToken) ->
GrantHandle`; callable only with a capability token, and the returned handle
is keyed by the supplied registration number. -/
def Kernel.create_grant (k : Kernel) (driver_num : Nat)
    (_cap : MemoryAllocationCapability) : Grant :=
  { kernel := k, driver_num := driver_num }

/-- Symbolic reference to one of the four static storage cells of the
component: the two device handles, the scratch buffer and the driver. -/
inductive CellRef where
  | accel
  | mag
  | buffer
  | driver
deriving DecidableEq

/-- Modelled from the spec: a Device Handle of the virtual-I2C layer:
a mux reference, an immutable target address, and an optional registered
completion client. -/
structure I2CDevice where
  mux : MuxI2C
  addr : U8
  client : Option CellRef
deriving DecidableEq

/-- Modelled from the spec: `I2CDevice::new(mux, addr)` constructs a handle
bound to the mux and address, with no client registered yet. -/
def I2CDevice.new (mux : MuxI2C) (addr : U8) : I2CDevice :=
  { mux := mux, addr := addr, client := none }

/-- Modelled from the spec: `set_client` registers exactly one completion
callback owner; a second call replaces the registration. -/
def I2CDevice.set_client (d : I2CDevice) (c : CellRef) : I2CDevice :=
  { d with client := some c }

/-- Modelled from the spec: the construction shape of the
`Lsm303dlhcI2C` driver state machine: two device handles, a shared scratch
buffer and a grant handle (the handles and the buffer are held by
reference into the static cells). -/
structure Lsm303dlhcI2C where
  accelerometer : CellRef
  magnetometer : CellRef
  buffer : CellRef
  grant : Grant
deriving DecidableEq

/-- Modelled from the spec: `Lsm303dlhcI2C::new(accelerometer_i2c,
magnetometer_i2c, buffer, grant)`. -/
def Lsm303dlhcI2C.new (accelerometer : CellRef) (magnetometer : CellRef)
    (buffer : CellRef) (grant : Grant) : Lsm303dlhcI2C :=
  { accelerometer := accelerometer, magnetometer := magnetometer
    buffer := buffer, grant := grant }

/-- The state of a `MaybeUninit<T>` static storage cell. -/
inductive MaybeUninit (α : Type) where
  | uninit
  | init (val : α)
deriving DecidableEq

/-- `MaybeUninit::write(value)`: always succeeds, initializes the cell with
the value and returns a mutable reference to the written value (modelled by
returning the value together with the new cell state). -/
def MaybeUninit.write (_c : MaybeUninit α) (v : α) : MaybeUninit α × α :=
  (MaybeUninit.init v, v)

/-- The default accelerometer address.  Modelled from the spec:
`lsm303xx::ACCELEROMETER_BASE_ADDRESS` is outside the provided sources; the
spec scenario gives address 0x19 for the accelerometer. -/
def ACCELEROMETER_BASE_ADDRESS : U8 := 0x19

/-- The default magnetometer address.  Modelled from the spec:
`lsm303xx::MAGNETOMETER_BASE_ADDRESS` is outside the provided sources; the
spec scenario gives address 0x1E for the magnetometer. -/
def MAGNETOMETER_BASE_ADDRESS : U8 := 0x1E

/-- The component spec, `Lsm303dlhcI2CComponent` from the source. -/
structure Lsm303dlhcI2CComponent where
  i2c_mux : MuxI2C
  accelerometer_i2c_address : U8
  magnetometer_i2c_address : U8
  board_kernel : Kernel
  driver_num : Nat
deriving DecidableEq

/-- `Lsm303dlhcI2CComponent::new` from the source: records the mux, kernel
and driver number, and resolves each optional address with `unwrap_or` on
the documented default. -/
def Lsm303dlhcI2CComponent.new (i2c_mux : MuxI2C)
    (accelerometer_i2c_address : Option U8)
    (magnetometer_i2c_address : Option U8)
    (board_kernel : Kernel) (driver_num : Nat) : Lsm303dlhcI2CComponent :=
  { i2c_mux := i2c_mux
    accelerometer_i2c_address :=
      accelerometer_i2c_address.getD ACCELEROMETER_BASE_ADDRESS
    magnetometer_i2c_address :=
      magnetometer_i2c_address.getD MAGNETOMETER_BASE_ADDRESS
    board_kernel := board_kernel
    driver_num := driver_num }

/-- `Component::StaticInput` from the source: the four `MaybeUninit` cells,
in declared order: accelerometer device, magnetometer device, 8-byte
buffer, driver. -/
def StaticInput : Type :=
  MaybeUninit I2CDevice × MaybeUninit I2CDevice × MaybeUninit Buffer8 ×
    MaybeUninit Lsm303dlhcI2C

/-- The type of the storage tuple built by the source macro
`lsm303dlhc_component_static!`: it allocates a buffer cell, an
accelerometer device cell, a magnetometer device cell and a driver cell,
and returns them as the tuple `(accelerometer_i2c, magnetometer_i2c,
buffer, lsm303dlhc)`. -/
def Lsm303dlhcComponentStaticTuple : Type :=
  MaybeUninit I2CDevice × MaybeUninit I2CDevice × MaybeUninit Buffer8 ×
    MaybeUninit Lsm303dlhcI2C

/-- Observable actions of `finalize`, recorded in source order. -/
inductive Event where
  | capCreated
  | grantCreated (board_kernel : Kernel) (driver_num : Nat)
      (cap : MemoryAllocationCapability)
  | writeCell (cell : CellRef)
  | setClient (device : CellRef) (client : CellRef)
deriving DecidableEq

/-- Recognizer for grant-creation events. -/
def Event.isGrantCreated : Event → Bool
  | Event.grantCreated _ _ _ => true
  | _ => false

/-- Recognizer for capability-creation events. -/
def Event.isCapCreated : Event → Bool
  | Event.capCreated => true
  | _ => false

/-- Recognizer for cell-write events. -/
def Event.isWrite : Event → Bool
  | Event.writeCell _ => true
  | _ => false

/-- The result of `finalize`: the final contents of the four storage cells,
the returned driver reference, and the trace of observable actions. -/
structure FinalizeOutput where
  static_buffer : StaticInput
  output : CellRef
  trace : List Event

/-- `Lsm303dlhcI2CComponent::finalize` from the source, statement by
statement: create the capability; write `[0; 8]` into the buffer cell;
write the two device handles bound to the shared mux and the resolved
addresses; create the grant keyed by `driver_num` and write the driver
over the two handles, the buffer and the grant; register the driver as
the client of both handles; return the driver reference. -/
def Lsm303dlhcI2CComponent.finalize (self : Lsm303dlhcI2CComponent)
    (static_buffer : StaticInput) : FinalizeOutput :=
  let grant_cap : MemoryAllocationCapability := MemoryAllocationCapability.mk
  let w2 := static_buffer.2.2.1.write (fun _ => (0 : U8))
  let _buffer := w2.2
  let w0 := static_buffer.1.write
    (I2CDevice.new self.i2c_mux self.accelerometer_i2c_address)
  let accelerometer_i2c := w0.2
  let w1 := static_buffer.2.1.write
    (I2CDevice.new self.i2c_mux self.magnetometer_i2c_address)
  let magnetometer_i2c := w1.2
  let w3 := static_buffer.2.2.2.write
    (Lsm303dlhcI2C.new CellRef.accel CellRef.mag CellRef.buffer
      (self.board_kernel.create_grant self.driver_num grant_cap))
  let accelerometer_i2c := accelerometer_i2c.set_client CellRef.driver
  let magnetometer_i2c := magnetometer_i2c.set_client CellRef.driver
  { static_buffer :=
      (MaybeUninit.init accelerometer_i2c, MaybeUninit.init magnetometer_i2c,
        w2.1, w3.1)
    output := CellRef.driver
    trace :=
      [Event.capCreated,
        Event.writeCell CellRef.buffer,
        Event.writeCell CellRef.accel,
        Event.writeCell CellRef.mag,
        Event.grantCreated self.board_kernel self.driver_num grant_cap,
        Event.writeCell CellRef.driver,
        Event.setClient CellRef.accel CellRef.driver,
        Event.setClient CellRef.mag CellRef.driver] }

/-- Modelled from the spec: `kernel::static_buf!` hands out a storage cell
guarded by a runtime-checked used flag, and a second acquisition attempt on
the same flag is a deterministic fatal error (modelled as `Except.error`). -/
def static_buf (α : Type) (used : Bool) :
    Except Unit (MaybeUninit α × Bool) :=
  if used then Except.error () else Except.ok (MaybeUninit.uninit, true)

/-- A fully uninitialized storage set, as produced by the macro. -/
def freshStatic : StaticInput :=
  (MaybeUninit.uninit, MaybeUninit.uninit, MaybeUninit.uninit,
    MaybeUninit.uninit)

/-- C1: every invocation of `finalize` invokes `create_grant` exactly once,
keyed by the `driver_num` the component was constructed with, presenting a
capability token, and the resulting grant handle is stored in the
constructed driver. -/
theorem finalize_creates_grant_once (mux : MuxI2C) (aOpt mOpt : Option U8)
    (k : Kernel) (dn : Nat) (sb : StaticInput) :
    (((Lsm303dlhcI2CComponent.new mux aOpt mOpt k dn).finalize sb).trace.filter
        Event.isGrantCreated
      = [Event.grantCreated k dn MemoryAllocationCapability.mk])
    ∧ (((Lsm303dlhcI2CComponent.new mux aOpt mOpt k dn).finalize sb).static_buffer.2.2.2
      = MaybeUninit.init
          (Lsm303dlhcI2C.new CellRef.accel CellRef.mag CellRef.buffer
            (k.create_grant dn MemoryAllocationCapability.mk))) :=
  ⟨rfl, rfl⟩

/-- C2: before the driver reference is returned, the constructed driver is
registered as the completion-callback client of both device handles, and
the returned reference is exactly that driver cell. -/
theorem finalize_wires_clients (self : Lsm303dlhcI2CComponent)
    (sb : StaticInput) :
    ((self.finalize sb).static_buffer.1
      = MaybeUninit.init
          ((I2CDevice.new self.i2c_mux
              self.accelerometer_i2c_address).set_client CellRef.driver))
    ∧ ((self.finalize sb).static_buffer.2.1
      = MaybeUninit.init
          ((I2CDevice.new self.i2c_mux
              self.magnetometer_i2c_address).set_client CellRef.driver))
    ∧ ((self.finalize sb).output = CellRef.driver) :=
  ⟨rfl, rfl, rfl⟩

/-- C3: `new` resolves a missing accelerometer address to
`ACCELEROMETER_BASE_ADDRESS` and a supplied one to itself, and
symmetrically for the magnetometer address. -/
theorem new_resolves_addresses (mux : MuxI2C) (aOpt mOpt : Option U8)
    (k : Kernel) (dn : Nat) (a m : U8) :
    ((Lsm303dlhcI2CComponent.new mux none mOpt k dn).accelerometer_i2c_address
      = ACCELEROMETER_BASE_ADDRESS)
    ∧ ((Lsm303dlhcI2CComponent.new mux (some a) mOpt k
          dn).accelerometer_i2c_address = a)
    ∧ ((Lsm303dlhcI2CComponent.new mux aOpt none k dn).magnetometer_i2c_address
      = MAGNETOMETER_BASE_ADDRESS)
    ∧ ((Lsm303dlhcI2CComponent.new mux aOpt (some m) k
          dn).magnetometer_i2c_address = m) :=
  ⟨rfl, rfl, rfl, rfl⟩

/-- C4: `finalize` writes each of the four storage cells exactly once (its
write trace is one write per cell), and the modelled one-shot storage
acquisition succeeds on a fresh flag and fails deterministically on a used
flag, so a second finalize on the same cell set cannot be reached. -/
theorem finalize_one_shot (self : Lsm303dlhcI2CComponent)
    (sb : StaticInput) :
    ((self.finalize sb).trace.filter Event.isWrite
      = [Event.writeCell CellRef.buffer, Event.writeCell CellRef.accel,
          Event.writeCell CellRef.mag, Event.writeCell CellRef.driver])
    ∧ (∀ α : Type,
        static_buf α false = Except.ok (MaybeUninit.uninit, true)
        ∧ static_buf α true = Except.error ()) :=
  ⟨rfl, fun _ => ⟨rfl, rfl⟩⟩

/-- C5: the storage tuple type produced by the
`lsm303dlhc_component_static!` macro is exactly the component's declared
`StaticInput` type: two device cells, one 8-byte buffer cell and one
driver cell, in that order. -/
theorem static_tuple_matches_input :
    Lsm303dlhcComponentStaticTuple = StaticInput :=
  rfl

/-- C6: `finalize` is total: for every component spec and storage set it
returns, with no error path, a reference to a driver cell that it has
initialized. -/
theorem finalize_total (self : Lsm303dlhcI2CComponent) (sb : StaticInput) :
    ∃ driver : Lsm303dlhcI2C,
      (self.finalize sb).static_buffer.2.2.2 = MaybeUninit.init driver
      ∧ (self.finalize sb).output = CellRef.driver :=
  ⟨_, rfl, rfl⟩

/-- C7: both device handles are constructed over the one mux the component
was given at `new`, bound to the respective resolved addresses, and the
driver is constructed over exactly those two handle cells, the buffer cell
and the grant. -/
theorem finalize_binds_shared_mux (mux : MuxI2C) (aOpt mOpt : Option U8)
    (k : Kernel) (dn : Nat) (sb : StaticInput) :
    (((Lsm303dlhcI2CComponent.new mux aOpt mOpt k dn).finalize sb).static_buffer.1
      = MaybeUninit.init
          { mux := mux, addr := aOpt.getD ACCELEROMETER_BASE_ADDRESS,
            client := some CellRef.driver })
    ∧ (((Lsm303dlhcI2CComponent.new mux aOpt mOpt k dn).finalize sb).static_buffer.2.1
      = MaybeUninit.init
          { mux := mux, addr := mOpt.getD MAGNETOMETER_BASE_ADDRESS,
            client := some CellRef.driver })
    ∧ (((Lsm303dlhcI2CComponent.new mux aOpt mOpt k dn).finalize sb).static_buffer.2.2.2
      = MaybeUninit.init
          { accelerometer := CellRef.accel, magnetometer := CellRef.mag,
            buffer := CellRef.buffer,
            grant := { kernel := k, driver_num := dn } })
    ∧ (((Lsm303dlhcI2CComponent.new mux aOpt mOpt k dn).finalize sb).output
      = CellRef.driver) :=
  ⟨rfl, rfl, rfl, rfl⟩

/-- C8: the capability token is ephemeral: exactly one token is created in
the trace and it is presented at exactly one grant-creation site; the
driver cell holds exactly the two handle references, the buffer reference
and the grant (no token), and the value returned is the driver cell
reference, not the token. -/
theorem finalize_cap_ephemeral (self : Lsm303dlhcI2CComponent)
    (sb : StaticInput) :
    (((self.finalize sb).trace.filter Event.isCapCreated).length = 1)
    ∧ (((self.finalize sb).trace.filter Event.isGrantCreated).length = 1)
    ∧ ((self.finalize sb).static_buffer.2.2.2
      = MaybeUninit.init
          { accelerometer := CellRef.accel, magnetometer := CellRef.mag,
            buffer := CellRef.buffer,
            grant := self.board_kernel.create_grant self.driver_num
              MemoryAllocationCapability.mk })
    ∧ ((self.finalize sb).output = CellRef.driver) :=
  ⟨rfl, rfl, rfl, rfl⟩

/-- C9: the 8-byte scratch buffer is initialized to all zeros, and in the
trace the buffer write occurs strictly before the driver cell write. -/
theorem finalize_zeroes_buffer (self : Lsm303dlhcI2CComponent)
    (sb : StaticInput) :
    ((self.finalize sb).static_buffer.2.2.1
      = MaybeUninit.init (fun _ => (0 : U8)))
    ∧ ∃ i j : Nat, i < j
        ∧ ((self.finalize sb).trace)[i]? = some (Event.writeCell CellRef.buffer)
        ∧ ((self.finalize sb).trace)[j]? = some (Event.writeCell CellRef.driver) :=
  ⟨rfl, 1, 5, by decide, rfl, rfl⟩

/-- C10: construction is deterministic: two runs of `new` followed by
`finalize` on identical inputs produce identical component configurations
and identical finalize outputs (cells, returned reference and trace). -/
theorem construction_deterministic (mux1 mux2 : MuxI2C)
    (aOpt1 aOpt2 mOpt1 mOpt2 : Option U8) (k1 k2 : Kernel)
    (dn1 dn2 : Nat) (sb1 sb2 : StaticInput)
    (hmux : mux1 = mux2) (ha : aOpt1 = aOpt2) (hm : mOpt1 = mOpt2)
    (hk : k1 = k2) (hd : dn1 = dn2) (hs : sb1 = sb2) :
    (Lsm303dlhcI2CComponent.new mux1 aOpt1 mOpt1 k1 dn1
      = Lsm303dlhcI2CComponent.new mux2 aOpt2 mOpt2 k2 dn2)
    ∧ ((Lsm303dlhcI2CComponent.new mux1 aOpt1 mOpt1 k1 dn1).finalize sb1
      = (Lsm303dlhcI2CComponent.new mux2 aOpt2 mOpt2 k2 dn2).finalize sb2) := by
  subst hmux ha hm hk hd hs
  exact ⟨rfl, rfl⟩

/-- Witness for C10 at concrete inputs. -/
theorem construction_deterministic_witness :
    (Lsm303dlhcI2CComponent.new ⟨0⟩ none (some 30) ⟨1⟩ 96
      = Lsm303dlhcI2CComponent.new ⟨0⟩ none (some 30) ⟨1⟩ 96)
    ∧ ((Lsm303dlhcI2CComponent.new ⟨0⟩ none (some 30) ⟨1⟩ 96).finalize freshStatic
      = (Lsm303dlhcI2CComponent.new ⟨0⟩ none (some 30) ⟨1⟩ 96).finalize freshStatic) :=
  construction_deterministic ⟨0⟩ ⟨0⟩ none none (some 30) (some 30) ⟨1⟩ ⟨1⟩
    96 96 freshStatic freshStatic rfl rfl rfl rfl rfl rfl
